import Mathlib

/-!
A verification development for the tender OCR extractor
(`server/ocr/tender_extractor.py`) and the secondary image-text service
(`server/rapidocr_service.py`).

The Python source is shallowly embedded: each pure function of the source
becomes a Lean function of the same name, and the external collaborators
(PDF rasterization, Tesseract recognition, PIL image operations, RapidOCR)
become explicit parameters, since the source only observes their results.
Python regular expressions are transcribed, pattern by pattern, into a small
regular-expression syntax `RE`; the matcher `mAll` enumerates matches in
Python `re` backtracking order (leftmost position first, alternation left
first, greedy repetition longest first, lazy repetition shortest first), so
`(mAll ...).head?` is the match Python's engine returns.  Rational numbers
stand in for Python floats, and `Nat` for Python's non-negative ints.
-/

/-- `lo ≤ n ≤ hi` as a Bool, for character-class ranges. -/
def between (lo hi n : Nat) : Bool :=
  decide (lo ≤ n) && decide (n ≤ hi)

/-- Python's `\s` / `str.strip` whitespace on the code points this system
meets: ASCII whitespace, the C0/C1 separators and the Unicode space
separators. -/
def isPySpace (c : Char) : Bool :=
  let n := c.toNat
  between 9 13 n || n == 32 || between 28 31 n || n == 133 || n == 160 ||
  n == 5760 || between 8192 8202 n || n == 8232 || n == 8233 || n == 8239 ||
  n == 8287 || n == 12288

/-- The Arabic code-point ranges of `detect_language`'s character class
`[؀-ۿݐ-ݿࢠ-ࣿﭐ-﷿ﹰ-﻿]`. -/
def isArabicChar (c : Char) : Bool :=
  let n := c.toNat
  between 0x0600 0x06FF n || between 0x0750 0x077F n ||
  between 0x08A0 0x08FF n || between 0xFB50 0xFDFF n ||
  between 0xFE70 0xFEFF n

/-- `\w` (ASCII part), used by the `\b` assertion. -/
def isWordChar (c : Char) : Bool :=
  c.isAlphanum || c == '_'

/-- Regular-expression syntax covering exactly the constructs the source's
patterns use: character classes, concatenation, ordered alternation, counted
greedy/lazy repetition, capture groups, `^`, `$`, `\Z` and `\b`. -/
inductive RE : Type where
  | eps : RE
  | cls : (Char → Bool) → RE
  | seq : RE → RE → RE
  | alt : RE → RE → RE
  | rep : RE → Nat → Option Nat → Bool → RE
  | grp : Nat → RE → RE
  | bos : RE
  | eol : RE
  | eos : RE
  | wb : RE

/-- Captured groups of one match, in capture order. -/
abbrev Caps := List (Nat × String)

/-- One way a pattern can match a prefix of the input: the character just
before the remaining input (for `\b` and `^`), the remaining input, and the
captures. -/
abbrev MRes := Option Char × List Char × Caps

/-- Whether the character left of the current position is a word character. -/
def prevIsWord (prev : Option Char) : Bool :=
  match prev with
  | some c => isWordChar c
  | none => false

/-- Whether the character at the current position is a word character. -/
def headIsWord (s : List Char) : Bool :=
  match s.head? with
  | some c => isWordChar c
  | none => false

/-- All ways `p` matches a prefix of `s`, in Python `re` backtracking order.
`prev` is the character just before `s` (none at the start of the input).
The fuel only bounds recursion depth — every entry point below supplies an
amount that is ample for its input, so the enumeration is exhaustive; a
repetition beyond its required count must consume input to continue, which
matches Python's refusal to loop on empty repeats. -/
def mAll : Nat → RE → Option Char → List Char → List MRes
  | 0, _, _, _ => []
  | _+1, .eps, prev, s => [(prev, s, [])]
  | _+1, .cls q, _, s =>
    match s with
    | [] => []
    | c :: rest => if q c then [(some c, rest, [])] else []
  | f+1, .seq a b, prev, s =>
    (mAll f a prev s).flatMap (fun r =>
      (mAll f b r.1 r.2.1).map (fun r2 => (r2.1, r2.2.1, r.2.2 ++ r2.2.2)))
  | f+1, .alt a b, prev, s => mAll f a prev s ++ mAll f b prev s
  | f+1, .grp i a, prev, s =>
    (mAll f a prev s).map (fun r =>
      (r.1, r.2.1, r.2.2 ++ [(i, String.mk (s.take (s.length - r.2.1.length)))]))
  | _+1, .bos, prev, s => if prev.isNone then [(prev, s, [])] else []
  | _+1, .eol, prev, s => if s.isEmpty || s == ['\n'] then [(prev, s, [])] else []
  | _+1, .eos, prev, s => if s.isEmpty then [(prev, s, [])] else []
  | _+1, .wb, prev, s =>
    if prevIsWord prev != headIsWord s then [(prev, s, [])] else []
  | f+1, .rep a lo hi lz, prev, s =>
    match lo with
    | n+1 =>
      (mAll f a prev s).flatMap (fun r =>
        (mAll f (.rep a n (hi.map (fun m => m - 1)) lz) r.1 r.2.1).map
          (fun r2 => (r2.1, r2.2.1, r.2.2 ++ r2.2.2)))
    | 0 =>
      if hi == some 0 then [(prev, s, [])]
      else
        let step :=
          (mAll f a prev s).flatMap (fun r =>
            if r.2.1.length < s.length then
              (mAll f (.rep a 0 (hi.map (fun m => m - 1)) lz) r.1 r.2.1).map
                (fun r2 => (r2.1, r2.2.1, r.2.2 ++ r2.2.2))
            else [])
        if lz then (prev, s, []) :: step else step ++ [(prev, s, [])]

/-- Ample matcher fuel for an input of this size (the recursion depth of
`mAll` is linear in the input length for the source's patterns; this bound
is far above it). -/
def mFuel (s : List Char) : Nat :=
  (s.length + 8) * (s.length + 8) * 64

/-- Group lookup on a match result; the last capture of a group wins, as in
Python. -/
def capLookup (caps : Caps) (i : Nat) : Option String :=
  (caps.reverse.find? (fun p => p.1 == i)).map (fun p => p.2)

/-- `re.match(p, s)`: anchored at position 0, first result in backtracking
order; yields the captures. -/
def reMatchCaps (p : RE) (s : String) : Option Caps :=
  ((mAll (mFuel s.data) p none s.data).head?).map (fun r => r.2.2)

/-- `re.match(p, s)` used as a condition. -/
def reMatchB (p : RE) (s : String) : Bool :=
  (reMatchCaps p s).isSome

/-- The scan of `re.search`: try each start position left to right, and at
the first position that matches return (suffix at that position, match). -/
def searchFrom (fuel : Nat) (p : RE) : Option Char → List Char → Option (List Char × MRes)
  | prev, s =>
    match (mAll fuel p prev s).head? with
    | some r => some (s, r)
    | none =>
      match s with
      | [] => none
      | c :: rest => searchFrom fuel p (some c) rest

/-- `re.search(p, s)`: the captures of the leftmost match. -/
def reSearchCaps (p : RE) (s : String) : Option Caps :=
  (searchFrom (mFuel s.data) p none s.data).map (fun r => r.2.2.2)

/-- `re.search(p, s).group(1)` for patterns whose group 1 always takes part
in a match. -/
def reSearchG1 (p : RE) (s : String) : Option String :=
  (reSearchCaps p s).bind (fun caps => capLookup caps 1)

/-- The scan loop of `re.findall`: repeated leftmost search, resuming after
each match (one character further when a match is empty). -/
def findAllGo (p : RE) (mf : Nat) : Nat → Option Char → List Char → List Caps
  | 0, _, _ => []
  | fuel+1, prev, s =>
    match searchFrom mf p prev s with
    | none => []
    | some (whereAt, (pv, rest, caps)) =>
      if rest.length < whereAt.length then
        caps :: findAllGo p mf fuel pv rest
      else
        match rest with
        | [] => [caps]
        | c :: r => caps :: findAllGo p mf fuel (some c) r

/-- `re.findall(p, s)` for a pattern with exactly one capture group: Python
returns the list of group 1 of every non-overlapping match. -/
def pyFindall1 (p : RE) (s : String) : List String :=
  (findAllGo p (mFuel s.data) (s.length + 1) none s.data).map
    (fun caps => (capLookup caps 1).getD "")

/-- `str.strip()`. -/
def pyStrip (s : String) : String :=
  String.mk (((s.data.dropWhile isPySpace).reverse.dropWhile isPySpace).reverse)

/-- The loop of `re.sub(r'\s+', ' ', s)`: every maximal whitespace run
becomes one space. -/
def collapseGo (prevWs : Bool) : List Char → List Char
  | [] => []
  | c :: rest =>
    if isPySpace c then
      if prevWs then collapseGo true rest else ' ' :: collapseGo true rest
    else c :: collapseGo false rest

/-- `re.sub(r'\s+', ' ', s)`. -/
def collapseWs (s : String) : String :=
  String.mk (collapseGo false s.data)

/-- `re.sub(r'^[\d\s\-\.]+', '', s)`: the anchored greedy class removes the
maximal such leading run. -/
def stripLeadNum (s : String) : String :=
  String.mk (s.data.dropWhile (fun c => c.isDigit || isPySpace c || c == '-' || c == '.'))

/-- `re.sub(r'[^\d.,]', '', s)`. -/
def cleanQty (s : String) : String :=
  String.mk (s.data.filter (fun c => c.isDigit || c == '.' || c == ','))

/-- `s.replace('-', '/').replace('.', '/')` (both patterns are single
characters, so this is a character map). -/
def dateNorm (s : String) : String :=
  String.mk (s.data.map (fun c => if c == '-' then '/' else if c == '.' then '/' else c))

/-- `str.upper()` (ASCII). -/
def pyUpper (s : String) : String :=
  String.mk (s.data.map Char.toUpper)

/-- `str.lower()` (ASCII). -/
def pyLower (s : String) : String :=
  String.mk (s.data.map Char.toLower)

/-- `s[:n]`. -/
def strTake (s : String) (n : Nat) : String :=
  String.mk (s.data.take n)

/-- `os.path.basename` on POSIX paths: the part after the last slash. -/
def pyBasename (s : String) : String :=
  String.mk ((s.data.reverse.takeWhile (fun c => c != '/')).reverse)

/-- The character walk of `text.split('\n')`. -/
def splitNlGo (cur : List Char) : List Char → List String
  | [] => [String.mk cur.reverse]
  | c :: rest =>
    if c == '\n' then String.mk cur.reverse :: splitNlGo [] rest
    else splitNlGo (c :: cur) rest

/-- `text.split('\n')`. -/
def pySplitLines (text : String) : List String :=
  splitNlGo [] text.data

/-- `int(s)` for a string of decimal digits. -/
def pyIntOfDigits (s : String) : Nat :=
  s.data.foldl (fun acc c => acc * 10 + (c.toNat - 48)) 0

/-- The digit expansion of `str(n)` for a natural number (fuel-recursive,
with ample fuel supplied by `natToStr`). -/
def natToStrGo : Nat → Nat → List Char
  | 0, _ => []
  | fuel+1, n =>
    if n < 10 then [Char.ofNat (48 + n)]
    else natToStrGo fuel (n / 10) ++ [Char.ofNat (48 + n % 10)]

/-- `str(n)` for a natural number. -/
def natToStr (n : Nat) : String :=
  String.mk (natToStrGo (n + 1) n)

/-! ## Pattern transcriptions

Smart constructors for transcribing Python patterns.  `chI`/`strI` are the
case-insensitive forms used where the source passes `re.IGNORECASE`. -/

/-- A literal character. -/
def chC (c : Char) : RE := .cls (fun x => x == c)

/-- A literal character under `re.IGNORECASE`. -/
def chI (c : Char) : RE := .cls (fun x => x.toLower == c.toLower)

/-- A literal string. -/
def strC (s : String) : RE := s.data.foldr (fun c r => .seq (chC c) r) .eps

/-- A literal string under `re.IGNORECASE`. -/
def strI (s : String) : RE := s.data.foldr (fun c r => .seq (chI c) r) .eps

/-- Concatenation of a pattern list. -/
def catR (l : List RE) : RE := l.foldr .seq .eps

/-- Ordered alternation of a pattern list. -/
def altR : List RE → RE
  | [] => .cls (fun _ => false)
  | [r] => r
  | r :: rest => .alt r (altR rest)

/-- `\d` (the inputs at issue carry ASCII digits). -/
def dC : RE := .cls Char.isDigit

/-- `\s`. -/
def wsC : RE := .cls isPySpace

/-- `.` without `re.DOTALL`. -/
def dotC : RE := .cls (fun c => c != '\n')

/-- `.` under `re.DOTALL`. -/
def dotAllC : RE := .cls (fun _ => true)

/-- `r*` (greedy). -/
def star (r : RE) : RE := .rep r 0 none false

/-- `r+` (greedy). -/
def plus (r : RE) : RE := .rep r 1 none false

/-- `r+?` (lazy). -/
def lazyPlus (r : RE) : RE := .rep r 1 none true

/-- `r?` (greedy). -/
def quesG (r : RE) : RE := .rep r 0 (some 1) false

/-- `r{lo,hi}` (greedy). -/
def repN (r : RE) (lo hi : Nat) : RE := .rep r lo (some hi) false

/-- `[:\s]`. -/
def colonWs : RE := .cls (fun c => c == ':' || isPySpace c)

/-- The unit alternation `(pieces?|pcs?|units?|each|nos?|sets?|qty)` of item
pattern 1, item pattern 3 and the fallback pattern (`re.IGNORECASE`). -/
def unitWordRE : RE := altR [
  catR [strI "piece", quesG (chI 's')],
  catR [strI "pc", quesG (chI 's')],
  catR [strI "unit", quesG (chI 's')],
  strI "each",
  catR [strI "no", quesG (chI 's')],
  catR [strI "set", quesG (chI 's')],
  strI "qty"]

/-- `(\d+(?:[.,]\d+)?)` as group 3 — the quantity of item patterns 1 and 2. -/
def qtyGrp : RE :=
  .grp 3 (catR [plus dC, quesG (catR [.cls (fun c => c == '.' || c == ','), plus dC])])

/-- Item pattern 1:
`^[\s]*(\d+)[.):\-\s]+([^0-9]+?)\s*[-–:]\s*(\d+(?:[.,]\d+)?)\s*(pieces?|pcs?|units?|each|nos?|sets?|qty)?`
(`re.IGNORECASE | re.UNICODE`). -/
def p1RE : RE := catR [
  .bos, star wsC,
  .grp 1 (plus dC),
  plus (.cls (fun c => c == '.' || c == ')' || c == ':' || c == '-' || isPySpace c)),
  .grp 2 (lazyPlus (.cls (fun c => !(between 48 57 c.toNat)))),
  star wsC, .cls (fun c => c == '-' || c == '–' || c == ':'), star wsC,
  qtyGrp,
  star wsC, quesG (.grp 4 unitWordRE)]

/-- Item pattern 2 (tabular):
`^[\s]*(\d+)\s+([^\t]+?)\t+\s*(\d+(?:[.,]\d+)?)\s*(pieces?|pcs?|units?)?`. -/
def p2RE : RE := catR [
  .bos, star wsC,
  .grp 1 (plus dC),
  plus wsC,
  .grp 2 (lazyPlus (.cls (fun c => c != '\t'))),
  plus (chC '\t'), star wsC,
  qtyGrp,
  star wsC,
  quesG (.grp 4 (altR [
    catR [strI "piece", quesG (chI 's')],
    catR [strI "pc", quesG (chI 's')],
    catR [strI "unit", quesG (chI 's')]]))]

/-- Item pattern 3:
`^[\s]*(\d+)[.)\s]+(.+?)\s+(\d+)\s*(pieces?|pcs?|units?|each|nos?|sets?|qty)?[\s]*$`. -/
def p3RE : RE := catR [
  .bos, star wsC,
  .grp 1 (plus dC),
  plus (.cls (fun c => c == '.' || c == ')' || isPySpace c)),
  .grp 2 (lazyPlus dotC),
  plus wsC,
  .grp 3 (plus dC),
  star wsC, quesG (.grp 4 unitWordRE),
  star wsC, .eol]

/-- Item pattern 4 (MOH Medical Store format):
`^[\s]*(\d+)\s*\|?\s*([A-Z][A-Za-z\s\d\-\./]+)\s+(?:PFS|VIAL|AMP|TAB|CAP|TUBE|BTL|BOX|PKT|SET|UNIT|PCE)\s+(\d+[\d,]*)`
(under `re.IGNORECASE`, `[A-Z]` and `[A-Za-z...]` admit both cases). -/
def p4RE : RE := catR [
  .bos, star wsC,
  .grp 1 (plus dC),
  star wsC, quesG (chC '|'), star wsC,
  .grp 2 (catR [.cls Char.isAlpha,
    plus (.cls (fun c => c.isAlpha || isPySpace c || c.isDigit ||
      c == '-' || c == '.' || c == '/'))]),
  plus wsC,
  altR [strI "PFS", strI "VIAL", strI "AMP", strI "TAB", strI "CAP", strI "TUBE",
    strI "BTL", strI "BOX", strI "PKT", strI "SET", strI "UNIT", strI "PCE"],
  plus wsC,
  .grp 3 (catR [plus dC, star (.cls (fun c => c.isDigit || c == ','))])]

/-- The ordered structural item patterns of `extract_items`. -/
def itemPatterns : List RE := [p1RE, p2RE, p3RE, p4RE]

/-- The fallback pattern of `extract_items`
(`(.{10,}?)\s+(\d+)\s*(pieces?|pcs?|units?|each|nos?|sets?|qty)\s*$`,
`re.IGNORECASE`, used with `re.search`). -/
def fbRE : RE := catR [
  .grp 1 (.rep dotC 10 none true),
  plus wsC,
  .grp 2 (plus dC),
  star wsC,
  .grp 3 unitWordRE,
  star wsC, .eol]

/-- The boilerplate patterns of `is_garbage_line`, matched with `re.match`
against the lowercased, stripped line. -/
def garbagePatterns : List RE := [
  catR [.bos, strC "page", star wsC, plus dC],
  catR [.bos, plus dC, star wsC, strC "of", star wsC, plus dC, .eol],
  catR [.bos, strC "http", quesG (chC 's'), strC "://"],
  catR [.bos, quesG (chC '+'), repN dC 3 3, quesG (.cls (fun c => isPySpace c || c == '-')),
    repN dC 4 4, quesG (.cls (fun c => isPySpace c || c == '-')), repN dC 4 4, .eol],
  catR [.bos, strC "ministry", plus wsC, strC "of", plus wsC, strC "health"],
  catR [.bos, strC "state", plus wsC, strC "of", plus wsC, strC "kuwait"],
  catR [.bos, strC "medical", plus wsC, strC "stores"],
  catR [.bos, strC "tender", plus wsC, strC "department"]]

/-- `^[\d\s\-\.\,]+$`, the all-digits-and-punctuation test of
`is_garbage_line`, applied to the line as passed. -/
def numPunctRE : RE := catR [
  .bos,
  plus (.cls (fun c => c.isDigit || isPySpace c || c == '-' || c == '.' || c == ',')),
  .eol]

/-- `TenderParser.is_garbage_line`. -/
def is_garbage_line (line : String) : Bool :=
  let lineLower := pyStrip (pyLower line)
  if garbagePatterns.any (fun p => reMatchB p lineLower) then true
  else if (pyStrip line).length < 5 then true
  else if reMatchB numPunctRE line then true
  else false

/-- The labeled date `(\d{1,2}[/\-\.]\d{1,2}[/\-\.]\d{2,4})` capture. -/
def dateGrp : RE :=
  let sep : RE := .cls (fun c => c == '/' || c == '-' || c == '.')
  .grp 1 (catR [repN dC 1 2, sep, repN dC 1 2, sep, repN dC 2 4])

/-- Closing-date pattern 1:
`(?:Closing\s*Date|Close\s*Date|Last\s*Date|Deadline)[:\s]*(\d{1,2}[/\-\.]\d{1,2}[/\-\.]\d{2,4})`. -/
def cd1RE : RE := catR [
  altR [
    catR [strI "Closing", star wsC, strI "Date"],
    catR [strI "Close", star wsC, strI "Date"],
    catR [strI "Last", star wsC, strI "Date"],
    strI "Deadline"],
  star colonWs, dateGrp]

/-- Closing-date pattern 2:
`(?:close[sd]?\s*(?:on|by)?|deadline)[:\s]*(\d{1,2}[/\-\.]\d{1,2}[/\-\.]\d{2,4})`. -/
def cd2RE : RE := catR [
  altR [
    catR [strI "close", quesG (.cls (fun c => c.toLower == 's' || c.toLower == 'd')),
      star wsC, quesG (altR [strI "on", strI "by"])],
    strI "deadline"],
  star colonWs, dateGrp]

/-- The bare date pattern `(\d{2}/\d{2}/\d{4})`. -/
def bareDateRE : RE :=
  .grp 1 (catR [repN dC 2 2, chC '/', repN dC 2 2, chC '/', repN dC 4 4])

/-- The ordered closing-date patterns. -/
def closingDatePatterns : List RE := [cd1RE, cd2RE, bareDateRE]

/-- Posting-date pattern:
`(?:Posted|Published|Posted\s*Date|Publication\s*Date)[:\s]*(\d{1,2}[/\-\.]\d{1,2}[/\-\.]\d{2,4})`. -/
def postRE : RE := catR [
  altR [
    strI "Posted",
    strI "Published",
    catR [strI "Posted", star wsC, strI "Date"],
    catR [strI "Publication", star wsC, strI "Date"]],
  star colonWs, dateGrp]

/-- The filename reference pattern `(\d{1,2}[A-Z]{2,3}\d{2,4})` — no flags,
so `[A-Z]` is case sensitive here. -/
def fnameRefRE : RE :=
  .grp 1 (catR [repN dC 1 2, repN (.cls (fun c => between 65 90 c.toNat)) 2 3, repN dC 2 4])

/-- The reference body `(\d{1,2}[A-Z]{2,3}\d{2,4})` under `re.IGNORECASE`. -/
def refBodyI : RE :=
  .grp 1 (catR [repN dC 1 2, repN (.cls Char.isAlpha) 2 3, repN dC 2 4])

/-- Text reference pattern 1:
`(?:Tender\s*(?:No\.?|Number|Ref\.?)?[:\s]*)?(\d{1,2}[A-Z]{2,3}\d{2,4})`. -/
def ref1RE : RE := catR [
  quesG (catR [strI "Tender", star wsC,
    quesG (altR [
      catR [strI "No", quesG (chC '.')],
      strI "Number",
      catR [strI "Ref", quesG (chC '.')]]),
    star colonWs]),
  refBodyI]

/-- Text reference pattern 2: `(?:Reference[:\s]*)?(\d{1,2}[A-Z]{2,3}\d{2,4})`. -/
def ref2RE : RE := catR [
  quesG (catR [strI "Reference", star colonWs]),
  refBodyI]

/-- Text reference pattern 3:
`\b(\d{1,2}(?:TN|LB|AL|EQ|LS|MA|PS|PT|TE|TS|IC|RC|BM)\d{2,4})\b`. -/
def ref3RE : RE := catR [
  .wb,
  .grp 1 (catR [repN dC 1 2,
    altR [strI "TN", strI "LB", strI "AL", strI "EQ", strI "LS", strI "MA",
      strI "PS", strI "PT", strI "TE", strI "TS", strI "IC", strI "RC", strI "BM"],
    repN dC 2 4]),
  .wb]

/-- The ordered text reference patterns. -/
def refTextPatterns : List RE := [ref1RE, ref2RE, ref3RE]

/-- Specifications pattern 1:
`(?:Technical\s*)?Specifications?[:\s]*(.+?)(?:Terms|Conditions|Notes|\Z)`
(`re.IGNORECASE | re.DOTALL`). -/
def spec1RE : RE := catR [
  quesG (catR [strI "Technical", star wsC]),
  strI "Specification", quesG (chI 's'), star colonWs,
  .grp 1 (lazyPlus dotAllC),
  altR [strI "Terms", strI "Conditions", strI "Notes", .eos]]

/-- Specifications pattern 2: `Requirements?[:\s]*(.+?)(?:Terms|Notes|\Z)`. -/
def spec2RE : RE := catR [
  strI "Requirement", quesG (chI 's'), star colonWs,
  .grp 1 (lazyPlus dotAllC),
  altR [strI "Terms", strI "Notes", .eos]]

/-- Specifications pattern 3: `Description[:\s]*(.+?)(?:Quantity|Terms|\Z)`. -/
def spec3RE : RE := catR [
  strI "Description", star colonWs,
  .grp 1 (lazyPlus dotAllC),
  altR [strI "Quantity", strI "Terms", .eos]]

/-- The ordered specifications patterns. -/
def specPatterns : List RE := [spec1RE, spec2RE, spec3RE]

/-! ## Language detection, items and field extractors -/

/-- The result of `TenderParser.detect_language`.  The Python value is a
dict `{'language', 'arabic_ratio', 'has_arabic'}`; the ratio, a Python
float, is modelled as an exact rational. -/
structure LangInfo where
  language : String
  arabic_ratio_q : ℚ
  has_arabic : Bool
deriving DecidableEq

/-- `len(re.findall(arabic_pattern, text))`: the class is a single-character
class, so this counts the Arabic characters. -/
def arabicCount (text : String) : Nat :=
  text.data.countP isArabicChar

/-- `len(re.sub(r'\s+', '', text))`: the non-whitespace characters. -/
def totalNonWs (text : String) : Nat :=
  (text.data.filter (fun c => !isPySpace c)).length

/-- `TenderParser.detect_language`.  Thresholds `0.3` and `0.05` become the
exact rationals `3/10` and `1/20`. -/
def detect_language (text : String) : LangInfo :=
  let arabicChars := arabicCount text
  let totalChars := totalNonWs text
  if totalChars = 0 then ⟨"unknown", 0, false⟩
  else
    let r : ℚ := (arabicChars : ℚ) / (totalChars : ℚ)
    ⟨if r > 3/10 then "arabic" else if r > 1/20 then "mixed" else "english",
     r, decide (arabicChars > 0)⟩

/-- `TenderItem` of the source (dataclass, all fields defaulted). -/
structure TenderItem where
  item_number : String := ""
  description : String := ""
  quantity : String := ""
  unit : String := ""
  specifications : String := ""
  language : String := "unknown"
  has_arabic : Bool := false
deriving DecidableEq

/-- The mutable loop state of `TenderParser.extract_items`: the items built
so far and the running `current_item_number` counter. -/
structure ScanState where
  items : List TenderItem
  current_item_number : Nat
deriving DecidableEq

/-- The inner pattern loop of `extract_items`: the first structural pattern
that `re.match`es the line wins, and no later pattern is tried. -/
def tryStructural : List RE → String → Option Caps
  | [], _ => none
  | p :: rest, line =>
    match reMatchCaps p line with
    | some caps => some caps
    | none => tryStructural rest line

/-- The structural-match half of the loop body of `extract_items`: on a
match, extract and clean the groups and emit an item when the cleaned
description is longer than 3 characters (only then is the counter set). -/
def structStep (s : ScanState) (line : String) : ScanState :=
  match tryStructural itemPatterns line with
  | none => s
  | some caps =>
    let itemNo := (capLookup caps 1).getD ""
    let description0 := pyStrip ((capLookup caps 2).getD "")
    let quantity0 := (capLookup caps 3).getD ""
    let unit := match capLookup caps 4 with
      | some u => if u = "" then "units" else u
      | none => "units"
    let description1 := stripLeadNum (pyStrip (collapseWs description0))
    let quantity := if quantity0 = "" then quantity0 else cleanQty quantity0
    if description1 ≠ "" ∧ description1.length > 3 then
      { items := s.items ++ [{
          item_number := itemNo,
          description := strTake description1 500,
          quantity := quantity,
          unit := pyLower unit,
          language := (detect_language description1).language,
          has_arabic := (detect_language description1).has_arabic }],
        current_item_number := pyIntOfDigits itemNo }
    else s

/-- The fallback half of the loop body of `extract_items`: the loose
trailing-quantity pattern, emitting with a synthesized sequential item
number when the description is long enough and not itself garbage. -/
def fallbackStep (s : ScanState) (line : String) : ScanState :=
  match reSearchCaps fbRE line with
  | none => s
  | some caps =>
    let description := pyStrip ((capLookup caps 1).getD "")
    let quantity := (capLookup caps 2).getD ""
    let unit := (capLookup caps 3).getD ""
    if description.length > 5 ∧ is_garbage_line description = false then
      { items := s.items ++ [{
          item_number := natToStr (s.current_item_number + 1),
          description := strTake description 500,
          quantity := quantity,
          unit := pyLower unit,
          language := (detect_language description).language,
          has_arabic := (detect_language description).has_arabic }],
        current_item_number := s.current_item_number + 1 }
    else s

/-- Whether the loop body reaches the fallback pattern on this line: the
guard `if not items or current_item_number == 0`, evaluated after the
structural patterns have been tried on the same line. -/
def fallbackEnabled (s : ScanState) : Prop :=
  s.items = [] ∨ s.current_item_number = 0

instance (s : ScanState) : Decidable (fallbackEnabled s) := by
  unfold fallbackEnabled; infer_instance

/-- One iteration of the line loop of `extract_items`: strip the line, skip
garbage and short lines, try the structural patterns, then the fallback
when the guard allows. -/
def processLine (s : ScanState) (line0 : String) : ScanState :=
  let line := pyStrip line0
  if is_garbage_line line then s
  else if line.length < 5 then s
  else
    let s1 := structStep s line
    if s1.items = [] ∨ s1.current_item_number = 0 then fallbackStep s1 line else s1

/-- The items of `extract_items` before deduplication: the full line scan. -/
def rawItems (text : String) : List TenderItem :=
  ((pySplitLines text).foldl processLine ⟨[], 0⟩).items

/-- The dedup key: `item.description.lower()[:100]`. -/
def dedupKey (item : TenderItem) : String :=
  strTake (pyLower item.description) 100

/-- The dedup loop of `extract_items`: keep an item when its key is not in
`seen`, else drop it. -/
def removeDupsGo (seen : List String) : List TenderItem → List TenderItem
  | [] => []
  | item :: rest =>
    if seen.contains (dedupKey item) then removeDupsGo seen rest
    else item :: removeDupsGo (dedupKey item :: seen) rest

/-- The deduplication pass of `extract_items` (`seen` starts empty). -/
def removeDups (items : List TenderItem) : List TenderItem :=
  removeDupsGo [] items

/-- `TenderParser.extract_items`. -/
def extract_items (text : String) : List TenderItem :=
  removeDups (rawItems text)

/-- `TenderParser.extract_reference_number`: the filename is tried first;
on a filename match the text patterns are not consulted. -/
def goRefText : List RE → String → String
  | [], _ => ""
  | p :: rest, text =>
    match reSearchG1 p text with
    | some m => pyUpper m
    | none => goRefText rest text

/-- `TenderParser.extract_reference_number`. -/
def extract_reference_number (text : String) (filename : String) : String :=
  match (if filename = "" then none else reSearchG1 fnameRefRE filename) with
  | some m => m
  | none => goRefText refTextPatterns text

/-- The pattern loop of `TenderParser.extract_closing_date`: first pattern
with any `findall` matches wins; with more than one match the last is
taken, and separators are normalized to `/`. -/
def goClosing : List RE → String → String
  | [], _ => ""
  | p :: rest, text =>
    let ms := pyFindall1 p text
    if ms.isEmpty then goClosing rest text
    else dateNorm (if 1 < ms.length then (ms.getLast?).getD "" else (ms.head?).getD "")

/-- `TenderParser.extract_closing_date`. -/
def extract_closing_date (text : String) : String :=
  goClosing closingDatePatterns text

/-- `TenderParser.extract_posting_date`: the labeled pattern first, else the
first bare date anywhere in the text. -/
def extract_posting_date (text : String) : String :=
  match reSearchG1 postRE text with
  | some d => dateNorm d
  | none => ((pyFindall1 bareDateRE text).head?).getD ""

/-- The pattern loop of `TenderParser.extract_specifications`: a captured
span is accepted only when, stripped and whitespace-collapsed, it exceeds
50 characters; otherwise the next pattern is tried. -/
def goSpecs : List RE → String → String
  | [], _ => ""
  | p :: rest, text =>
    match reSearchG1 p text with
    | some g =>
      let specs := collapseWs (pyStrip g)
      if specs.length > 50 then strTake specs 2000 else goSpecs rest text
    | none => goSpecs rest text

/-- `TenderParser.extract_specifications`. -/
def extract_specifications (text : String) : String :=
  goSpecs specPatterns text

/-! ## OCR engine, orchestrator and service boundary

The OCR stage calls external collaborators (`pdf2image.convert_from_path`,
PIL preprocessing, `pytesseract.image_to_data`); the embedding takes the
image type and those collaborators as parameters, with `Except` standing
for "raised an exception".  `image_to_data`'s parallel `text`/`conf` lists
are modelled as one list of words with their confidences. -/

/-- One recognized word of `pytesseract.image_to_data` output. -/
structure OcrWord where
  text : String
  conf : Int
deriving DecidableEq

/-- The page loop of `OCREngine.extract_text_from_pdf`: per page, preprocess
then recognize (a raised exception stops the loop), keep words with
positive confidence and non-blank text, join them with single spaces, and
record the page's average confidence when any word was kept. -/
def pageLoop {Img : Type} (pre : Img → Img) (i2d : Img → Except String (List OcrWord)) :
    List Img → Except String (List String × List ℚ)
  | [] => .ok ([], [])
  | img :: rest =>
    match i2d (pre img) with
    | .error e => .error e
    | .ok words =>
      let kept := words.filter (fun w => decide (0 < w.conf) && decide (pyStrip w.text ≠ ""))
      match pageLoop pre i2d rest with
      | .error e => .error e
      | .ok (texts, confs) =>
        .ok ((String.intercalate " " (kept.map (fun w => w.text))) :: texts,
          if kept = [] then confs
          else ((kept.map (fun w => (w.conf : ℚ))).sum / (kept.length : ℚ)) :: confs)

/-- `OCREngine.extract_text_from_pdf`: empty result when the file is
missing (the rasterizer is then never consulted), when rasterization
raises, or when any page's recognition raises; otherwise the page texts are
joined with the page-break separator and the confidence is the mean of the
per-page averages (0 with no confident page). -/
def extract_text_from_pdf {Img : Type} (fileExists : Bool)
    (convert : Except String (List Img)) (pre : Img → Img)
    (i2d : Img → Except String (List OcrWord)) : String × ℚ :=
  if fileExists = false then ("", 0)
  else
    match convert with
    | .error _ => ("", 0)
    | .ok images =>
      match pageLoop pre i2d images with
      | .error _ => ("", 0)
      | .ok (allText, confidences) =>
        (String.intercalate "\n\n--- PAGE BREAK ---\n\n" allText,
         if confidences = [] then 0 else confidences.sum / (confidences.length : ℚ))

/-- `TenderData` of the source (dataclass, all fields defaulted). -/
structure TenderData where
  reference_number : String := ""
  title : String := ""
  closing_date : String := ""
  posting_date : String := ""
  department : String := ""
  items : List TenderItem := []
  specifications_text : String := ""
  items_count : Nat := 0
  ocr_confidence : ℚ := 0
  source_files : List String := []
  extraction_timestamp : String := ""
  extraction_method : String := "ocr"
  language : String := "unknown"
  has_arabic_content : Bool := false
  raw_text : String := ""
  errors : List String := []
deriving DecidableEq

/-- `TenderExtractor.process_pdf`, with the OCR stage's result passed in
(the engine itself is the external pipeline above) and the timestamp
`datetime.now().isoformat()` passed as `now`. -/
def process_pdf (ocrResult : String × ℚ) (pdf_path : String)
    (department : String) (include_raw_text : Bool) (now : String) : TenderData :=
  let filename := pyBasename pdf_path
  let text := ocrResult.1
  let confidence := ocrResult.2
  if text = "" then
    { reference_number := extract_reference_number "" filename,
      department := department,
      source_files := [filename],
      errors := ["Failed to extract text from PDF"],
      extraction_timestamp := now }
  else
    let langInfo := detect_language text
    let items := extract_items text
    { reference_number := extract_reference_number text filename,
      closing_date := extract_closing_date text,
      posting_date := extract_posting_date text,
      department := department,
      items := items,
      specifications_text := extract_specifications text,
      items_count := items.length,
      ocr_confidence := confidence,
      source_files := [filename],
      extraction_timestamp := now,
      language := langInfo.language,
      has_arabic_content := langInfo.has_arabic,
      raw_text := if include_raw_text then text else "" }

/-- The service boundary's successful payload (`main`, after `process_pdf`
returns): `{"success": True, "data": result.to_dict()}`. -/
structure ServiceOutcome where
  success : Bool
  data : Option TenderData := none
  error : Option String := none
deriving DecidableEq

/-- The wrapping `main` applies to every record `process_pdf` returns. -/
def serviceWrap (r : TenderData) : ServiceOutcome :=
  { success := true, data := some r }

/-! ## The image-text service (`rapidocr_service.py`)

Image decoding, RGB conversion and cropping are external PIL operations;
they are folded into one `prep` parameter whose `Except` value is the
prepared image or the raised exception's text.  The RapidOCR engine call
returns `(result, elapse)` where `result` is `None` or a list of
`(box, text, confidence)` triples. -/

/-- One `(box, text, confidence)` triple of a RapidOCR result. -/
structure RecItem where
  box : List (ℚ × ℚ)
  text : String
  confidence : ℚ
deriving DecidableEq

/-- One output box of `extract_text_from_image`. -/
structure OutBox where
  text : String
  confidence : ℚ
  box : List (ℚ × ℚ)
deriving DecidableEq

/-- The response dict of `extract_text_from_image`; keys absent from a
branch's dict are `none`. -/
structure ImageTextOutcome where
  success : Bool
  text : String
  boxes : List OutBox
  error : Option String := none
  processing_time_ms : Option ℚ := none
deriving DecidableEq

/-- Python's `if not result` on RapidOCR's result: `None` or the empty
list. -/
def optListFalsy {α : Type} : Option (List α) → Bool
  | none => true
  | some l => l.isEmpty

/-- `extract_text_from_image` of `rapidocr_service.py`. -/
def extract_text_from_image {Img : Type} (prep : Except String Img)
    (engine : Img → Except String (Option (List RecItem) × ℚ)) : ImageTextOutcome :=
  match prep with
  | .error e => { success := false, text := "", boxes := [], error := some e }
  | .ok img =>
    match engine img with
    | .error e => { success := false, text := "", boxes := [], error := some e }
    | .ok (result, elapse) =>
      if optListFalsy result then
        { success := false, text := "", boxes := [], error := some "No text detected" }
      else
        let items := result.getD []
        { success := true,
          text := String.intercalate "\n" (items.map (fun it => it.text)),
          boxes := items.map (fun it => ⟨it.text, it.confidence, it.box⟩),
          processing_time_ms := some elapse }

/-! ## Deduplication, first-occurrence view -/

/-- The first-occurrence-per-key reading of the dedup pass: keep the head
and drop every later item with its key, then recurse. -/
def firstOccur : List TenderItem → List TenderItem
  | [] => []
  | x :: xs => x :: firstOccur (xs.filter (fun y => dedupKey y != dedupKey x))
termination_by l => l.length
decreasing_by
  simp only [List.length_cons]
  exact Nat.lt_succ_of_le (List.length_filter_le _ _)

theorem firstOccur_cons (x : TenderItem) (xs : List TenderItem) :
    firstOccur (x :: xs)
      = x :: firstOccur (xs.filter (fun y => dedupKey y != dedupKey x)) := by
  rw [firstOccur]

theorem removeDupsGo_cons (seen : List String) (x : TenderItem) (xs : List TenderItem) :
    removeDupsGo seen (x :: xs)
      = if seen.contains (dedupKey x) then removeDupsGo seen xs
        else x :: removeDupsGo (dedupKey x :: seen) xs := rfl

theorem removeDupsGo_eq_firstOccur (l : List TenderItem) :
    ∀ seen : List String,
      removeDupsGo seen l
        = firstOccur (l.filter (fun y => !(seen.contains (dedupKey y)))) := by
  induction l with
  | nil => intro seen; simp [removeDupsGo, firstOccur]
  | cons x xs ih =>
    intro seen
    cases h : seen.contains (dedupKey x) with
    | true =>
      rw [show removeDupsGo seen (x :: xs) = removeDupsGo seen xs by
        rw [removeDupsGo_cons, if_pos h]]
      rw [show List.filter (fun y => !seen.contains (dedupKey y)) (x :: xs)
          = List.filter (fun y => !seen.contains (dedupKey y)) xs by
        rw [List.filter_cons]
        rw [show (!seen.contains (dedupKey x)) = false by rw [h]; rfl]
        simp]
      exact ih seen
    | false =>
      rw [show removeDupsGo seen (x :: xs)
          = x :: removeDupsGo (dedupKey x :: seen) xs by
        rw [removeDupsGo_cons, if_neg]
        rw [h]
        exact Bool.false_ne_true]
      rw [show List.filter (fun y => !seen.contains (dedupKey y)) (x :: xs)
          = x :: List.filter (fun y => !seen.contains (dedupKey y)) xs by
        rw [List.filter_cons]
        rw [show (!seen.contains (dedupKey x)) = true by rw [h]; rfl]
        simp]
      rw [firstOccur_cons, ih (dedupKey x :: seen), List.filter_filter]
      have hpt : ∀ y ∈ xs,
          (!(dedupKey x :: seen).contains (dedupKey y))
            = ((dedupKey y != dedupKey x) && !seen.contains (dedupKey y)) := by
        intro y _
        rw [List.contains_cons, Bool.not_or]
        rfl
      rw [List.filter_congr hpt]

theorem removeDups_eq_firstOccur (l : List TenderItem) :
    removeDups l = firstOccur l := by
  rw [removeDups, removeDupsGo_eq_firstOccur l []]
  congr 1
  simp

theorem firstOccur_sublist (l : List TenderItem) : (firstOccur l).Sublist l := by
  induction l using firstOccur.induct with
  | case1 => simp [firstOccur]
  | case2 x xs ih =>
    rw [firstOccur_cons]
    exact List.Sublist.cons₂ x (ih.trans (List.filter_sublist xs))

theorem firstOccur_pairwise (l : List TenderItem) :
    (firstOccur l).Pairwise (fun a b => dedupKey a ≠ dedupKey b) := by
  induction l using firstOccur.induct with
  | case1 => simp [firstOccur]
  | case2 x xs ih =>
    rw [firstOccur_cons]
    refine List.Pairwise.cons (fun y hy => ?_) ih
    have hmem : y ∈ xs.filter (fun y => dedupKey y != dedupKey x) :=
      (firstOccur_sublist _).subset hy
    have hne := List.of_mem_filter hmem
    simp only [bne_iff_ne, ne_eq] at hne
    exact fun h => hne h.symm

theorem firstOccur_covers (l : List TenderItem) :
    ∀ y ∈ l, ∃ z ∈ firstOccur l, dedupKey z = dedupKey y := by
  induction l using firstOccur.induct with
  | case1 => simp
  | case2 x xs ih =>
    intro y hy
    rw [firstOccur_cons]
    rcases List.mem_cons.mp hy with h | h
    · exact ⟨x, List.mem_cons_self x _, by rw [h]⟩
    · by_cases hk : dedupKey y = dedupKey x
      · exact ⟨x, List.mem_cons_self x _, hk.symm⟩
      · have hmem : y ∈ xs.filter (fun z => dedupKey z != dedupKey x) :=
          List.mem_filter.mpr ⟨h, by simpa [bne_iff_ne] using hk⟩
        obtain ⟨z, hz, hzk⟩ := ih y hmem
        exact ⟨z, List.mem_cons_of_mem x hz, hzk⟩

/-! ## Field lemmas for language detection -/

theorem detect_language_pos (text : String) (h0 : totalNonWs text ≠ 0) :
    detect_language text =
      ⟨if ((arabicCount text : ℚ) / (totalNonWs text : ℚ)) > 3/10 then "arabic"
        else if ((arabicCount text : ℚ) / (totalNonWs text : ℚ)) > 1/20 then "mixed"
        else "english",
       (arabicCount text : ℚ) / (totalNonWs text : ℚ),
       decide (arabicCount text > 0)⟩ := by
  simp only [detect_language]
  rw [if_neg h0]

theorem detect_language_fields (text : String) (h0 : totalNonWs text ≠ 0) :
    (detect_language text).arabic_ratio_q
        = (arabicCount text : ℚ) / (totalNonWs text : ℚ)
      ∧ (detect_language text).has_arabic = decide (0 < arabicCount text)
      ∧ (detect_language text).language
        = (if ((arabicCount text : ℚ) / (totalNonWs text : ℚ)) > 3/10 then "arabic"
           else if ((arabicCount text : ℚ) / (totalNonWs text : ℚ)) > 1/20 then "mixed"
           else "english") := by
  rw [detect_language_pos text h0]
  exact ⟨rfl, rfl, rfl⟩

theorem arabic_not_space (c : Char) (h : isArabicChar c = true) : isPySpace c = false := by
  simp only [isArabicChar, between, Bool.or_eq_true, Bool.and_eq_true,
    decide_eq_true_eq] at h
  simp only [isPySpace, between, Bool.or_eq_false_iff, Bool.and_eq_false_iff,
    decide_eq_false_iff_not, not_le, beq_eq_false_iff_ne, ne_eq]
  omega

theorem arabicCount_le_totalNonWs (text : String) :
    arabicCount text ≤ totalNonWs text := by
  rw [arabicCount, totalNonWs, ← List.countP_eq_length_filter]
  exact List.countP_mono_left (fun c _ hc => by rw [arabic_not_space c hc]; rfl)

/-! ## The claims -/

/-- The spec's end-to-end example text of C1. -/
def c1Text : String :=
  "1. Surgical Gloves - 500 pieces\n2. Syringes 10ml - 1000 units\nPage 1 of 3\n"

/-- C1 counterexample: on the spec's three-line text, `extract_items` does
not return the item list the claim states — the second item's description is
"Syringes 10ml -" (pattern 3's lazy group captures up to the dash, and the
cleaning step only strips leading digits/dashes), not "Syringes 10ml". -/
theorem c1_counterexample :
    (extract_items c1Text).map (fun i => (i.item_number, i.description, i.quantity, i.unit))
      ≠ [("1", "Surgical Gloves", "500", "pieces"),
         ("2", "Syringes 10ml", "1000", "units")] := by
  decide

/-- C1 (amended): on the three-line text, `extract_items` returns exactly two
items in this order — `{"1", "Surgical Gloves", "500", "pieces"}` then
`{"2", "Syringes 10ml -", "1000", "units"}` — and the "Page 1 of 3" line is
rejected by the garbage filter. -/
theorem c1_end_to_end :
    (extract_items c1Text).map (fun i => (i.item_number, i.description, i.quantity, i.unit))
      = [("1", "Surgical Gloves", "500", "pieces"),
         ("2", "Syringes 10ml -", "1000", "units")]
      ∧ is_garbage_line "Page 1 of 3" = true := by
  exact ⟨by decide, by decide⟩

/-- The two-line text of the C2 counterexample. -/
def c2Text : String :=
  "1. ab - 5 pieces\nThis is a long description 20 pieces"

/-- C2 counterexample: a structural pattern matches the first line
"1. ab - 5 pieces" (but emits nothing, the cleaned description being too
short, so the counter stays 0), no structural pattern matches the second
line, and yet the fallback emits an item at the second line — so the
fallback can emit even though a structural pattern matched on an earlier
line, contradicting the claim's first direction. -/
theorem c2_fallback_counterexample :
    (tryStructural itemPatterns "1. ab - 5 pieces").isSome = true
      ∧ tryStructural itemPatterns "This is a long description 20 pieces" = none
      ∧ (extract_items c2Text).map
          (fun i => (i.item_number, i.description, i.quantity, i.unit))
        = [("1", "This is a long description", "20", "pieces")] := by
  refine ⟨by decide, by decide, by decide⟩

/-- C2 (amended): on every non-garbage line of length ≥ 5 the fallback
pattern is tried exactly when, after the structural patterns have been tried
on that same line, the item list is still empty or the running counter is 0;
the counter starts at 0 and is updated only when a match emits an item (a
structural match whose cleaned description is too short updates nothing). -/
theorem c2_fallback_guard (s : ScanState) (line0 : String)
    (hg : is_garbage_line (pyStrip line0) = false)
    (hl : ¬ (pyStrip line0).length < 5) :
    (fallbackEnabled (structStep s (pyStrip line0)) →
      processLine s line0 = fallbackStep (structStep s (pyStrip line0)) (pyStrip line0))
    ∧ (¬ fallbackEnabled (structStep s (pyStrip line0)) →
      processLine s line0 = structStep s (pyStrip line0)) := by
  simp only [processLine]
  rw [if_neg (by rw [hg]; exact Bool.false_ne_true), if_neg hl]
  constructor
  · intro h; exact if_pos h
  · intro h; exact if_neg h

/-- C2 witness: the guard theorem applied at the scan start on the line
"This is a long description 20 pieces". -/
theorem c2_fallback_guard_witness :
    processLine ⟨[], 0⟩ "This is a long description 20 pieces"
      = fallbackStep (structStep ⟨[], 0⟩ (pyStrip "This is a long description 20 pieces"))
          (pyStrip "This is a long description 20 pieces") :=
  (c2_fallback_guard ⟨[], 0⟩ "This is a long description 20 pieces"
      (by decide) (by decide)).1 (Or.inl (by decide))

/-- C3: `extract_items` deduplicates by the case-folded 100-character
description prefix — its output is the first-occurrence-per-key sublist of
the scanned items: no two returned items share a key, the returned sequence
is a subsequence of the scan (order preserved, later duplicates dropped),
and every scanned item's key is represented. -/
theorem c3_dedup_first_survives (text : String) :
    extract_items text = firstOccur (rawItems text)
      ∧ (extract_items text).Pairwise (fun a b => dedupKey a ≠ dedupKey b)
      ∧ (extract_items text).Sublist (rawItems text)
      ∧ ∀ y ∈ rawItems text, ∃ z ∈ extract_items text, dedupKey z = dedupKey y := by
  have he : extract_items text = firstOccur (rawItems text) :=
    removeDups_eq_firstOccur (rawItems text)
  refine ⟨he, ?_, ?_, ?_⟩
  · rw [he]; exact firstOccur_pairwise _
  · rw [he]; exact firstOccur_sublist _
  · intro y hy; rw [he]; exact firstOccur_covers _ y hy

/-- The closing-date text with two labeled occurrences. -/
def c4TwoText : String :=
  "Closing Date: 15/03/2025 then Closing Date: 20/03/2025"

/-- A text containing "Closing Date: 15/03/2025" followed later by
"Closing Date: 20/03/2025" — and then by a third occurrence. -/
def c4ThreeText : String :=
  "Closing Date: 15/03/2025 then " ++ "Closing Date: 20/03/2025"
    ++ " then Closing Date: 25/03/2025"

/-- The one-step unfolding of the closing-date pattern loop. -/
theorem goClosing_cons (p : RE) (rest : List RE) (text : String) :
    goClosing (p :: rest) text
      = (if (pyFindall1 p text).isEmpty then goClosing rest text
         else dateNorm (if 1 < (pyFindall1 p text).length
            then ((pyFindall1 p text).getLast?).getD ""
            else ((pyFindall1 p text).head?).getD "")) := rfl

/-- C4 counterexample: the claim quantifies over *any* text containing the
15/03 label followed later by the 20/03 label; on a text where a third
occurrence follows, the function returns the third date, not "20/03/2025". -/
theorem c4_closing_date_counterexample :
    extract_closing_date c4ThreeText ≠ "20/03/2025"
      ∧ extract_closing_date c4ThreeText = "25/03/2025" := by
  exact ⟨by decide, by decide⟩

/-- C4 (amended): whenever the first labeled closing-date pattern yields two
or more matches, `extract_closing_date` returns the last occurrence
(normalized); in particular on the text whose labeled matches are exactly
"15/03/2025" then "20/03/2025" it returns "20/03/2025". -/
theorem c4_closing_date_last_match :
    (∀ text : String, 2 ≤ (pyFindall1 cd1RE text).length →
      extract_closing_date text
        = dateNorm (((pyFindall1 cd1RE text).getLast?).getD ""))
    ∧ extract_closing_date c4TwoText = "20/03/2025" := by
  constructor
  · intro text h
    unfold extract_closing_date closingDatePatterns
    rw [goClosing_cons]
    have hne : (pyFindall1 cd1RE text).isEmpty = false := by
      cases hms : pyFindall1 cd1RE text with
      | nil => rw [hms] at h; simp at h
      | cons a l => rfl
    rw [if_neg (by rw [hne]; exact Bool.false_ne_true)]
    rw [if_pos (by omega)]
  · decide

/-- C4 witness: the general last-match conjunct applied at the
two-occurrence text. -/
theorem c4_closing_date_witness :
    extract_closing_date c4TwoText
      = dateNorm (((pyFindall1 cd1RE c4TwoText).getLast?).getD "") :=
  c4_closing_date_last_match.1 c4TwoText (by decide)

/-- C5: with filename "25MS1234_tender.pdf" the filename pattern matches, so
`extract_reference_number` returns "25MS1234" for every document text — the
text patterns are never consulted. -/
theorem c5_reference_from_filename (text : String) :
    extract_reference_number text "25MS1234_tender.pdf" = "25MS1234" := rfl

/-- C6: when the OCR stage returns empty text, `process_pdf` returns a
record whose reference number is derived from the filename alone, with the
department, `source_files = [filename]`,
`errors = ["Failed to extract text from PDF"]` and the timestamp set, and
every other field at its default (in particular no items and
`items_count = 0`); the service boundary still wraps it as success. -/
theorem c6_empty_text_error_record (conf : ℚ) (pdf_path department now : String)
    (include_raw : Bool) :
    process_pdf ("", conf) pdf_path department include_raw now
        = { reference_number := extract_reference_number "" (pyBasename pdf_path),
            department := department,
            source_files := [pyBasename pdf_path],
            errors := ["Failed to extract text from PDF"],
            extraction_timestamp := now }
      ∧ (process_pdf ("", conf) pdf_path department include_raw now).items = []
      ∧ (process_pdf ("", conf) pdf_path department include_raw now).items_count = 0
      ∧ (serviceWrap (process_pdf ("", conf) pdf_path department include_raw now)).success
          = true :=
  ⟨rfl, rfl, rfl, rfl⟩

/-- A page loop with a recognizer that raises on some page ends in that
(or an earlier) error. -/
theorem pageLoop_error_of_mem {Img : Type} (pre : Img → Img)
    (i2d : Img → Except String (List OcrWord)) :
    ∀ images : List Img, (∃ img ∈ images, ∃ e, i2d (pre img) = Except.error e) →
      ∃ e, pageLoop pre i2d images = Except.error e := by
  intro images
  induction images with
  | nil => rintro ⟨img, hmem, _⟩; cases hmem
  | cons a rest ih =>
    rintro ⟨img, hmem, e, herr⟩
    rcases List.mem_cons.mp hmem with h | h
    · subst h
      exact ⟨e, by simp only [pageLoop, herr]⟩
    · cases ha : i2d (pre a) with
      | error e2 => exact ⟨e2, by simp only [pageLoop, ha]⟩
      | ok words =>
        obtain ⟨e3, h3⟩ := ih ⟨img, h, e, herr⟩
        exact ⟨e3, by simp only [pageLoop, ha, h3]⟩

/-- C7: the OCR adapter never propagates an exception — a missing file
yields `("", 0)` without consulting the rasterizer (the result is the same
for every rasterizer/recognizer), a raising rasterizer yields `("", 0)`,
and a raising recognizer on any page yields `("", 0)`. -/
theorem c7_ocr_error_handling (Img : Type)
    (convert convert' : Except String (List Img)) (pre pre' : Img → Img)
    (i2d i2d' : Img → Except String (List OcrWord)) :
    (extract_text_from_pdf false convert pre i2d = ("", 0)
      ∧ extract_text_from_pdf false convert pre i2d
          = extract_text_from_pdf false convert' pre' i2d')
    ∧ (∀ e, extract_text_from_pdf true (Except.error e) pre i2d = ("", 0))
    ∧ (∀ images : List Img,
        (∃ img ∈ images, ∃ e, i2d (pre img) = Except.error e) →
        extract_text_from_pdf true (Except.ok images) pre i2d = ("", 0)) := by
  refine ⟨⟨rfl, rfl⟩, fun e => rfl, fun images hex => ?_⟩
  obtain ⟨e3, h3⟩ := pageLoop_error_of_mem pre i2d images hex
  simp only [extract_text_from_pdf, h3]
  rfl

/-- C7 witness: a one-page document whose recognition raises yields the
empty result. -/
theorem c7_ocr_error_handling_witness :
    extract_text_from_pdf true (Except.ok [()]) id
        (fun _ => Except.error "recognition failed") = ("", 0) :=
  (c7_ocr_error_handling Unit (Except.ok [()]) (Except.ok [()]) id id
      (fun _ => Except.error "recognition failed")
      (fun _ => Except.error "recognition failed")).2.2
    [()] ⟨(), List.mem_singleton.mpr rfl, "recognition failed", rfl⟩

/-- C8: for text with a non-whitespace character, `has_arabic` is exactly
"the Arabic character count is positive", independent of the ratio
thresholds; and whenever the ratio is positive but at most 1/20 the language
is "english" while `has_arabic` is true. -/
theorem c8_arabic_flag_thresholds (text : String) :
    (0 < totalNonWs text →
      (detect_language text).has_arabic = decide (0 < arabicCount text))
    ∧ (0 < (detect_language text).arabic_ratio_q →
        (detect_language text).arabic_ratio_q ≤ 1/20 →
        (detect_language text).language = "english"
          ∧ (detect_language text).has_arabic = true) := by
  constructor
  · intro h
    exact (detect_language_fields text (by omega)).2.1
  · intro h1 h2
    by_cases h0 : totalNonWs text = 0
    · rw [show detect_language text = ⟨"unknown", 0, false⟩ by
        simp only [detect_language]; rw [if_pos h0]] at h1
      exact absurd h1 (by norm_num)
    · obtain ⟨hr, hb, hl⟩ := detect_language_fields text h0
      rw [hr] at h1 h2
      constructor
      · rw [hl, if_neg (by linarith), if_neg (by linarith)]
      · rw [hb]
        have ha : arabicCount text ≠ 0 := by
          intro hz
          rw [hz] at h1
          simp at h1
        simpa using Nat.pos_of_ne_zero ha

/-- The detected ratio in terms of the two character counts. -/
theorem ratio_eq_counts (text : String) (a t : Nat) (ha : arabicCount text = a)
    (ht : totalNonWs text = t) (h0 : t ≠ 0) :
    (detect_language text).arabic_ratio_q = (a : ℚ) / (t : ℚ) := by
  rw [(detect_language_fields text (by rw [ht]; exact h0)).1, ha, ht]

/-- Twenty Latin letters and one Arabic letter: ratio 1/21. -/
def c8Text : String := "abcdefghijklmnopqrstا"

/-- C8 witness: the threshold conjunct applied at a text of twenty Latin
letters and one Arabic letter (ratio 1/21, positive and at most 1/20). -/
theorem c8_arabic_flag_witness :
    (detect_language c8Text).language = "english"
      ∧ (detect_language c8Text).has_arabic = true :=
  (c8_arabic_flag_thresholds c8Text).2
    (by rw [ratio_eq_counts c8Text 1 21 (by decide) (by decide) (by omega)]; norm_num)
    (by rw [ratio_eq_counts c8Text 1 21 (by decide) (by decide) (by omega)]; norm_num)

/-- C9: `detect_language` is total by construction and well-behaved on every
input: the ratio lies in [0, 1] (every Arabic character is counted in the
non-whitespace denominator), and an input with no non-whitespace character
is classified "unknown". -/
theorem c9_detect_language_total (text : String) :
    0 ≤ (detect_language text).arabic_ratio_q
      ∧ (detect_language text).arabic_ratio_q ≤ 1
      ∧ (totalNonWs text = 0 → (detect_language text).language = "unknown") := by
  by_cases h0 : totalNonWs text = 0
  · rw [show detect_language text = ⟨"unknown", 0, false⟩ by
      simp only [detect_language]; rw [if_pos h0]]
    exact ⟨le_refl 0, by norm_num, fun _ => rfl⟩
  · obtain ⟨hr, _, _⟩ := detect_language_fields text h0
    rw [hr]
    have ht : (0 : ℚ) < (totalNonWs text : ℚ) := by
      exact_mod_cast Nat.pos_of_ne_zero h0
    refine ⟨div_nonneg (Nat.cast_nonneg _) (Nat.cast_nonneg _), ?_, fun h => absurd h h0⟩
    rw [div_le_one ht]
    exact_mod_cast arabicCount_le_totalNonWs text

/-- C9 witness: the totality theorem applied to an all-whitespace input. -/
theorem c9_detect_language_witness :
    (detect_language "   ").language = "unknown"
      ∧ 0 ≤ (detect_language "   ").arabic_ratio_q :=
  ⟨(c9_detect_language_total "   ").2.2 (by decide),
   (c9_detect_language_total "   ").1⟩

/-- C10: in the image-text service, an empty recognition result (None or the
empty list) is reported as a failure — `success = false`, empty text, no
boxes, error "No text detected" — and the processing-time field is omitted
on this path. -/
theorem c10_no_text_detected (Img : Type) (img : Img)
    (engine : Img → Except String (Option (List RecItem) × ℚ))
    (result : Option (List RecItem)) (elapse : ℚ)
    (heng : engine img = Except.ok (result, elapse))
    (hempty : optListFalsy result = true) :
    extract_text_from_image (Except.ok img) engine
      = { success := false, text := "", boxes := [],
          error := some "No text detected", processing_time_ms := none } := by
  simp only [extract_text_from_image, heng, hempty, if_true]

/-- C10 witness: a recognizer returning `None` at some image. -/
theorem c10_no_text_detected_witness :
    extract_text_from_image (Except.ok ()) (fun _ => Except.ok (none, 0))
      = { success := false, text := "", boxes := [],
          error := some "No text detected", processing_time_ms := none } :=
  c10_no_text_detected Unit () (fun _ => Except.ok (none, 0)) none 0 rfl rfl
